import Mathlib

/-
Formal model of the One-Palm fortune engine (src/main.py) as a shallow
embedding: the 12-branch ring tables, the modular ring arithmetic
(get_next_position), the five-element relation resolver
(get_element_relation), the subject chart constructor (OnePalmSystem),
the hierarchy resolver, the pattern detector, the static aspects list of
the /api/calculate handler, and the trend series generator
(calculate_full_trend).  Ring positions are modelled as `Int` with
explicit `% 12` (Python's `%` on a positive modulus agrees with `Int.emod`);
the external lunar-calendar library (borax `LunarDate`) is modelled as an
oracle record of partial functions (`Calendar`).
-/

namespace OnePalm

/-- The 12 branch characters, in ring order (source: `ZHI`). -/
def ZHI : List String := ["子", "丑", "寅", "卯", "辰", "巳", "午", "未", "申", "酉", "戌", "亥"]

/-- Star name of each branch, in `ZHI` order (source: `STARS_INFO[z]['name']`). -/
def STAR_NAMES : List String :=
  ["天貴星", "天厄星", "天權星", "天破星", "天奸星", "天文星",
   "天福星", "天驛星", "天孤星", "天刃星", "天藝星", "天壽星"]

/-- Element of each branch, in `ZHI` order (source: `STARS_INFO[z]['element']`). -/
def ELEMENTS_OF : List String :=
  ["水", "土", "木", "木", "土", "火", "火", "土", "金", "金", "土", "水"]

/-- The 12 life-aspect names in fixed order (source: `ASPECTS_ORDER`). -/
def ASPECTS_ORDER : List String :=
  ["總命運", "形象", "幸福", "事業", "變動", "健康", "愛情", "領導", "親信", "根基", "朋友", "錢財"]

/-- Branch character at a ring position (source: `ZHI[idx]`, with `idx` always
produced modulo 12 and hence in range at every call site). -/
def zhi_at (i : Int) : String := ZHI.getD i.toNat ""

/-- Star name at a ring position (source: `STARS_INFO[ZHI[idx]]['name']`). -/
def star_name_at (i : Int) : String := STAR_NAMES.getD i.toNat ""

/-- Element at a ring position (source: `STARS_INFO[ZHI[idx]]['element']`). -/
def star_element_at (i : Int) : String := ELEMENTS_OF.getD i.toNat ""

/-- Source: `get_zhi_index(zhi_char)`, i.e.
`ZHI.index(zhi_char) if zhi_char in ZHI else 0`. -/
def get_zhi_index (c : String) : Nat :=
  if c ∈ ZHI then ZHI.findIdx (fun z => z == c) else 0

/-- Source: `get_next_position(start_index, steps, direction)`, i.e.
`(start_index + steps * direction) % 12` with Python's non-negative `%`. -/
def get_next_position (start_index steps direction : Int) : Int :=
  (start_index + steps * direction) % 12

/-- Source: the `PRODUCING` dict in `get_element_relation`; `.get` is `Option`. -/
def PRODUCING (e : String) : Option String :=
  if e = "水" then some "木"
  else if e = "木" then some "火"
  else if e = "火" then some "土"
  else if e = "土" then some "金"
  else if e = "金" then some "水"
  else none

/-- Source: the `CONTROLING` dict in `get_element_relation`. -/
def CONTROLING (e : String) : Option String :=
  if e = "水" then some "火"
  else if e = "火" then some "金"
  else if e = "金" then some "木"
  else if e = "木" then some "土"
  else if e = "土" then some "水"
  else none

/-- A relation category with its numeric score. -/
structure Relation where
  type : String
  score : Int
  deriving DecidableEq

/-- Source: `get_element_relation(me, target)` with its exact branch order. -/
def get_element_relation (me target : String) : Relation :=
  if PRODUCING target = some me then ⟨"生我", 80⟩
  else if me = target then ⟨"比旺", 75⟩
  else if PRODUCING me = some target then ⟨"我生", 60⟩
  else if CONTROLING me = some target then ⟨"我剋", 35⟩
  else if CONTROLING target = some me then ⟨"剋我", 20⟩
  else ⟨"未知", 60⟩

/-- The five elements, in the order of the source's `PRODUCING` keys. -/
def FIVE_ELEMENTS : List String := ["水", "木", "火", "土", "金"]

/-- The spec's production cycle A→B→C→D→E→A over the five elements taken in
production order (水,木,火,土,金), as ordered pairs (producer, produced). -/
def spec_produces : List (String × String) :=
  [("水", "木"), ("木", "火"), ("火", "土"), ("土", "金"), ("金", "水")]

/-- The spec's control cycle A→C, C→E, E→B, B→D, D→A over the same ordering,
as ordered pairs (controller, controlled). -/
def spec_controls : List (String × String) :=
  [("水", "火"), ("火", "金"), ("金", "木"), ("木", "土"), ("土", "水")]

/-- The spec's relation ladder (§4.2), written from the spec's words: six
prioritised rungs with scores 80/75/60/35/20/60 and the spec's category
names.  This is the spec-side definition for the refinement comparison with
`get_element_relation`. -/
def spec_relation (host guest : String) : String × Int :=
  if (guest, host) ∈ spec_produces then ("nourishes-host", 80)
  else if host = guest then ("peer", 75)
  else if (host, guest) ∈ spec_produces then ("host-exerts", 60)
  else if (host, guest) ∈ spec_controls then ("host-strains", 35)
  else if (guest, host) ∈ spec_controls then ("host-afflicted", 20)
  else ("indeterminate", 60)

/-- Correspondence between the spec's category names and the source's. -/
def category_zh (c : String) : String :=
  if c = "nourishes-host" then "生我"
  else if c = "peer" then "比旺"
  else if c = "host-exerts" then "我生"
  else if c = "host-strains" then "我剋"
  else if c = "host-afflicted" then "剋我"
  else "未知"

/-- Source: `STAR_MODIFIERS` (tier lookup with `.get(name, 0)`). -/
def STAR_MODIFIERS (n : String) : Int :=
  if n = "天貴星" then 30 else if n = "天福星" then 30
  else if n = "天文星" then 30 else if n = "天壽星" then 30
  else if n = "天權星" then 10 else if n = "天藝星" then 10
  else if n = "天驛星" then 10 else if n = "天奸星" then 10
  else if n = "天孤星" then -20 else if n = "天破星" then -20
  else if n = "天刃星" then -20 else if n = "天厄星" then -20
  else 0

/-- Source: `RENHE_MODIFIERS` (compatibility lookup with `.get(name, 0)`). -/
def RENHE_MODIFIERS (n : String) : Int :=
  if n = "天貴星" then 10 else if n = "天福星" then 10
  else if n = "天文星" then 10 else if n = "天壽星" then 10
  else if n = "天權星" then 5 else if n = "天藝星" then 5
  else if n = "天驛星" then 5 else if n = "天奸星" then 5
  else if n = "天孤星" then -10 else if n = "天破星" then -10
  else if n = "天刃星" then -10 else if n = "天厄星" then -10
  else 0

/-- A subject chart: traversal direction and the four origin pillars
(source: the fields set in `OnePalmSystem.__init__`). -/
structure OnePalmSystem where
  direction : Int
  year_idx : Int
  month_idx : Int
  day_idx : Int
  hour_idx : Int
  deriving DecidableEq

/-- Source: `OnePalmSystem.__init__(gender, birth_year_zhi, birth_month_num,
birth_day_num, birth_hour_zhi)`. -/
def mkOnePalmSystem (gender : Int) (birth_year_zhi : String)
    (birth_month_num birth_day_num : Int) (birth_hour_zhi : String) : OnePalmSystem :=
  let direction : Int := if gender = 1 then 1 else -1
  let year_idx : Int := (get_zhi_index birth_year_zhi : Int)
  let month_idx := get_next_position year_idx (birth_month_num - 1) direction
  let day_idx := get_next_position month_idx (birth_day_num - 1) direction
  let hour_idx := get_next_position day_idx (get_zhi_index birth_hour_zhi : Int) direction
  ⟨direction, year_idx, month_idx, day_idx, hour_idx⟩

/-- A normalized target date, as produced by `parse_target_date` (only the
fields the hierarchy/trend code reads). -/
structure TargetData where
  lunar_year : Int
  lunar_month : Int
  lunar_day : Int
  year_zhi : String
  hour_zhi : String
  deriving DecidableEq

/-- The five hierarchy layers, as ring positions.  In the source each layer is
a dict `{**STARS_INFO[ZHI[idx]], "zhi": ZHI[idx]}`; every field of that dict is
determined by the ring position `idx`, which is what we store (`zhi` is
`zhi_at`, `element` is `star_element_at`, `name` is `star_name_at`). -/
structure Hierarchy where
  big_luck : Int
  year : Int
  month : Int
  day : Int
  hour : Int
  deriving DecidableEq

/-- Source: `OnePalmSystem.calculate_hierarchy(current_age, target_data, scope)`.
Python's floor division `//` is `Int.fdiv`. -/
def calculate_hierarchy (s : OnePalmSystem) (current_age : Int) (t : TargetData) : Hierarchy :=
  let start_luck := get_next_position s.hour_idx 1 s.direction
  let luck_stage := (current_age - 1).fdiv 7
  let big_luck_idx := get_next_position start_luck luck_stage s.direction
  let t_year_zhi_idx : Int := (get_zhi_index t.year_zhi : Int)
  let flow_year_idx := get_next_position big_luck_idx t_year_zhi_idx s.direction
  let flow_month_idx := get_next_position flow_year_idx (t.lunar_month - 1) s.direction
  let flow_day_idx := get_next_position flow_month_idx (t.lunar_day - 1) s.direction
  let t_hour_idx : Int := (get_zhi_index t.hour_zhi : Int)
  let flow_hour_idx := get_next_position flow_day_idx t_hour_idx s.direction
  ⟨big_luck_idx, flow_year_idx, flow_month_idx, flow_day_idx, flow_hour_idx⟩

/-- Source: `OnePalmSystem.calculate_special_patterns`.  The dict
`star_counts` built by iterating the four pillars is modelled by `countP`
over the pillar list (`star_counts.get(n, 0)` is the count of pillars whose
star name is `n`); each flagged pattern is a `(name, desc)` pair appended in
source order. -/
def calculate_special_patterns (s : OnePalmSystem) : List (String × String) :=
  let pillars := [s.year_idx, s.month_idx, s.day_idx, s.hour_idx]
  let count := fun star => pillars.countP (fun j => star_name_at j == star)
  let good_stars := ["天貴星", "天福星", "天壽星", "天文星", "天權星"]
  let bad_stars_all := ["天奸星", "天破星", "天驛星", "天刃星", "天厄星", "天孤星"]
  (if pillars.all (fun j => good_stars.contains (star_name_at j)) then
    [("👑 四柱全吉格", "四柱皆為吉星，必然大富大貴之命。")] else [])
  ++ (if pillars.all (fun j => bad_stars_all.contains (star_name_at j)) then
    [("⚠️ 四柱全凶格", "四柱皆凶，需修身養性，行善積德以化解。")] else [])
  ++ (if 3 ≤ count "天權星" then [("🔥 三權掌印格", "權星犯重，心高志大，富貴有權，不受人欺。")] else [])
  ++ (if 3 ≤ count "天貴星" then [("💎 三貴顯赫格", "貴星犯重，必然大貴，受人尊敬。")] else [])
  ++ (if 3 ≤ count "天福星" then [("💰 三福巨富格", "福星犯重，財源廣進，必然大富。")] else [])
  ++ (if 3 ≤ count "天孤星" then [("🧘‍♂️ 三孤通靈格", "孤星犯重，若為僧道必成正果，在家亦非凡俗。")] else [])
  ++ (if 3 ≤ count "天驛星" then [("🐎 三驛奔波格", "驛星犯重，一生勞碌，遷移無定。")] else [])
  ++ (if count "天刃星" = 2 then [("⚔️ 雙刃化善格", "刃星見二，反主慈善，但仍需修身。")] else [])
  ++ (if 3 ≤ count "天厄星" then [("🛡️ 三厄反吉格", "厄星犯重反不為厄，衣祿有餘。")] else [])

/-- The trend scope (source: the request string `target_scope`, one of
`'year' | 'month' | 'day' | 'hour'`). -/
inductive Scope where
  | year
  | month
  | day
  | hour
  deriving DecidableEq

/-- Oracle for the external borax `LunarDate` library (an excluded
collaborator).  `days_in_month y m` models
`LunarDate(y, m, 1).days_in_month` (`none` when the constructor raises);
`solar_of y m d` models `LunarDate(y, m, d).to_solar_date()` as
(year, month, day) (`none` when it raises). -/
structure Calendar where
  days_in_month : Int → Int → Option Nat
  solar_of : Int → Int → Int → Option (Int × Int × Int)

/-- One axis point of the trend loop (source: the dict appended to
`loop_items`).  `off` is the `'offset'` key (year scope only), `val` the
integer `'val'` key (year/month/day scopes), `zhi` the string `'val'` key
(hour scope only); `label1`/`label2` are the two label halves. -/
structure Point where
  off : Int
  val : Int
  zhi : String
  label1 : String
  label2 : String
  deriving DecidableEq

instance : Inhabited Point := ⟨⟨0, 0, "", "", ""⟩⟩

/-- Two-digit zero-padded rendering, as Python's `f"{n:02}"` for n in [0,24). -/
def pad2 (n : Int) : String :=
  if n.toNat < 10 then "0" ++ toString n.toNat else toString n.toNat

/-- The axis of the trend loop (source: the `loop_items` construction in
`calculate_full_trend`, one branch per scope).  The day-scope day count
defaults to 30 and is replaced by the probe result when the probe does not
raise (`days_in_month = 30; try: ... except: pass`). -/
def loop_items (scope : Scope) (cal : Calendar) (t : TargetData) : List Point :=
  match scope with
  | .year =>
      (List.range 13).map (fun (k : Nat) =>
        let i : Int := (k : Int) - 6
        let year_val := t.lunar_year + i
        { off := i, val := year_val, zhi := "",
          label1 := toString year_val,
          label2 := "(" ++ zhi_at ((year_val - 4) % 12) ++ "年)" })
  | .month =>
      (List.range 12).map (fun (k : Nat) =>
        let i : Int := (k : Int) + 1
        let s_label :=
          match cal.solar_of t.lunar_year i 1 with
          | some (_, sm, sd) => toString sm ++ "/" ++ toString sd ++ "~"
          | none => "推算中"
        { off := 0, val := i, zhi := "",
          label1 := toString i ++ "月", label2 := s_label })
  | .day =>
      let valid_month := max 1 (min 12 t.lunar_month)
      let days := (cal.days_in_month t.lunar_year valid_month).getD 30
      (List.range days).map (fun (k : Nat) =>
        let i : Int := (k : Int) + 1
        match cal.solar_of t.lunar_year valid_month i with
        | some (_, sm, sd) =>
            { off := 0, val := i, zhi := "",
              label1 := toString sm ++ "/" ++ toString sd,
              label2 := if i < 11 then "(初" ++ toString i ++ ")" else "(" ++ toString i ++ ")" }
        | none =>
            { off := 0, val := i, zhi := "", label1 := toString i ++ "日", label2 := "" })
  | .hour =>
      (List.range 12).map (fun (k : Nat) =>
        let z := ZHI.getD k ""
        { off := 0, val := 0, zhi := z,
          label1 := pad2 ((((k : Int) - 1) * 2 + 24) % 24) ++ "-" ++ pad2 (((k : Int) * 2 + 1) % 24),
          label2 := "(" ++ z ++ "時)" })

/-- The `target_val_match` index recorded by the trend loop.  For the year
scope the source records `len(loop_items) - 1` at loop offset `i == 0`, the
seventh of the 13 entries, i.e. index 6. -/
def target_val_match (scope : Scope) (t : TargetData) : Int :=
  match scope with
  | .year => 6
  | .month => t.lunar_month - 1
  | .day => t.lunar_day - 1
  | .hour => (get_zhi_index t.hour_zhi : Int)

/-- The per-point time-layer position (source: the `dynamic_idx` computation
in the trend loop; `current_fy_idx`, `current_fm_idx` and `current_fd_idx`
are read back from the hierarchy dicts through `get_zhi_index(...['zhi'])`;
for the hour scope the point's `'val'` is a branch string, so the source
takes `get_zhi_index(point['val'])`). -/
def dynamic_idx (s : OnePalmSystem) (h : Hierarchy) (scope : Scope) (p : Point) : Int :=
  match scope with
  | .year => get_next_position (get_zhi_index (zhi_at h.year) : Int) p.off s.direction
  | .month => get_next_position (get_zhi_index (zhi_at h.year) : Int) (p.val - 1) s.direction
  | .day => get_next_position (get_zhi_index (zhi_at h.month) : Int) (p.val - 1) s.direction
  | .hour => get_next_position (get_zhi_index (zhi_at h.day) : Int) (get_zhi_index p.zhi : Int) s.direction

/-- One emitted cell of the trend: relation score, modifier, annotation. -/
structure Cell where
  score : Int
  adjust : Int
  tooltip : String
  deriving DecidableEq

/-- The body of the inner aspect loop of `calculate_full_trend` for aspect
slot `i` at axis point `p`: the aspect anchor is `system_obj.hour_idx`, the
slot-0 (`"總命運"`) host/guest substitution mirrors the `upper_level_star`
`Option` of the source, and the modifier is tier score plus rooted bonus. -/
def trend_cell (s : OnePalmSystem) (h : Hierarchy) (scope : Scope) (p : Point) (i : Nat) : Cell :=
  let dyn := dynamic_idx s h scope p
  let me_el := star_element_at dyn
  let age_star_name := star_name_at dyn
  let name := ASPECTS_ORDER.getD i ""
  let curr_idx := (s.hour_idx + (i : Int)) % 12
  let upper : Option (Int × String) :=
    if name = "總命運" then
      some (match scope with
        | .year => (h.big_luck, "(大運)")
        | .month => (h.year, "(流年)")
        | .day => (h.month, "(流月)")
        | .hour => (h.day, "(流日)"))
    else none
  let host_el := match upper with | some u => star_element_at u.1 | none => me_el
  let host_name := match upper with | some u => star_name_at u.1 ++ u.2 | none => age_star_name
  let guest_el := match upper with | some _ => me_el | none => star_element_at curr_idx
  let guest_name := match upper with | some _ => age_star_name ++ "(值星)" | none => star_name_at curr_idx
  let rel := get_element_relation host_el guest_el
  let grade_score := STAR_MODIFIERS (star_name_at curr_idx)
  let root_score : Int := if curr_idx ∈ [s.year_idx, s.month_idx, s.day_idx, s.hour_idx] then 10 else 0
  { score := rel.score,
    adjust := grade_score + root_score,
    tooltip := "[" ++ p.label1 ++ p.label2 ++ "] " ++ guest_name ++ " " ++ rel.type ++ " " ++ host_name }

/-- The trend response (source: the `trend_response` dict).  The per-aspect
dicts keyed by the 12 distinct `ASPECTS_ORDER` names are modelled as lists
parallel to `ASPECTS_ORDER`. -/
structure TrendResponse where
  axis_labels : List (String × String)
  datasets : List (List Int)
  adjustments : List (List Int)
  tooltips : List (List String)
  renhe_scores : List (Int × String)
  target_index : Int

/-- Source: `OnePalmSystem.calculate_full_trend`.  The source loops over axis
points and, inside, over the 12 aspects, appending to per-aspect lists; the
resulting lists are exactly the point-wise maps below. -/
def calculate_full_trend (s : OnePalmSystem) (h : Hierarchy) (scope : Scope)
    (cal : Calendar) (t : TargetData) : TrendResponse :=
  let items := loop_items scope cal t
  { axis_labels := items.map (fun p => (p.label1, p.label2))
    datasets := (List.range 12).map (fun (i : Nat) => items.map (fun p => (trend_cell s h scope p i).score))
    adjustments := (List.range 12).map (fun (i : Nat) => items.map (fun p => (trend_cell s h scope p i).adjust))
    tooltips := (List.range 12).map (fun (i : Nat) => items.map (fun p => (trend_cell s h scope p i).tooltip))
    renhe_scores := items.map (fun p =>
      let dyn := dynamic_idx s h scope p
      (RENHE_MODIFIERS (star_name_at dyn), star_name_at dyn))
    target_index := target_val_match scope t }

/-- One entry of the static `aspects` list of the `/api/calculate` handler. -/
structure AspectEntry where
  name : String
  star : String
  element : String
  zhi : String
  relation : String
  is_alert : Bool
  deriving DecidableEq

instance : Inhabited AspectEntry := ⟨⟨"", "", "", "", "", false⟩⟩

/-- The static aspects list of the `/api/calculate` handler (source lines
491-509).  `base_idx` is `get_zhi_index(hierarchy['year']['zhi'])` in both
branches of the source's conditional; `host_star` is the scope's own layer,
and slot 0 substitutes the parent layer's element. -/
def calculate_aspects (h : Hierarchy) (scope : Scope) : List AspectEntry :=
  let base_idx : Int := (get_zhi_index (zhi_at h.year) : Int)
  let host_el : String :=
    star_element_at (match scope with
      | .year => h.year
      | .month => h.month
      | .day => h.day
      | .hour => h.hour)
  (List.range 12).map (fun (i : Nat) =>
    let name := ASPECTS_ORDER.getD i ""
    let curr_idx := (base_idx + (i : Int)) % 12
    let current_host_el :=
      if name = "總命運" then
        star_element_at (match scope with
          | .year => h.big_luck
          | .month => h.year
          | .day => h.month
          | .hour => h.day)
      else host_el
    let rel := get_element_relation current_host_el (star_element_at curr_idx)
    { name := name,
      star := star_name_at curr_idx,
      element := star_element_at curr_idx,
      zhi := zhi_at curr_idx,
      relation := rel.type,
      is_alert := rel.type == "我剋" || rel.type == "剋我" })

/-- The parent hierarchy layer used by the slot-0 substitution, per scope. -/
def parent_layer (h : Hierarchy) : Scope → Int
  | .year => h.big_luck
  | .month => h.year
  | .day => h.month
  | .hour => h.day

/-- The hierarchy layer matching a scope (the time-varying layer). -/
def scope_layer (h : Hierarchy) : Scope → Int
  | .year => h.year
  | .month => h.month
  | .day => h.day
  | .hour => h.hour

/-- A calendar oracle on which every probe raises. -/
def cal_none : Calendar := ⟨fun _ _ => none, fun _ _ _ => none⟩

/-- Concrete subject fixture: male forward polarity, origin pillars at ring
branches (0, 1, 2, 3). -/
def s0 : OnePalmSystem := mkOnePalmSystem 1 "子" 2 2 "丑"

/-- Concrete target-date fixture. -/
def t0 : TargetData := ⟨2026, 1, 1, "子", "子"⟩

/-- Hierarchy of `s0` at age 8 targeting `t0`. -/
def h0 : Hierarchy := calculate_hierarchy s0 8 t0

/-- Any branch-character lookup lands strictly below 12 (the absent case
defaults to 0, the present case is an index into the 12-entry table). -/
theorem get_zhi_index_lt (c : String) : get_zhi_index c < 12 := by
  unfold get_zhi_index
  by_cases hc : c ∈ ZHI
  · rw [if_pos hc]
    fin_cases hc <;> decide
  · rw [if_neg hc]
    decide

/-- Looking up the character of a valid ring position returns the position. -/
theorem get_zhi_index_zhi_at (i : Int) (h0 : 0 ≤ i) (h12 : i < 12) :
    (get_zhi_index (zhi_at i) : Int) = i := by
  have hn : i.toNat < 12 := by omega
  have : (get_zhi_index (zhi_at i) : Int) = (i.toNat : Int) := by
    congr 1
    unfold zhi_at
    interval_cases h : i.toNat <;> decide
  omega

/-- `get_next_position` always lands in [0, 12). -/
theorem get_next_position_nonneg (a b c : Int) : 0 ≤ get_next_position a b c :=
  Int.emod_nonneg _ (by norm_num)

/-- `get_next_position` always lands in [0, 12). -/
theorem get_next_position_lt (a b c : Int) : get_next_position a b c < 12 :=
  Int.emod_lt_of_pos _ (by norm_num)

/-- Indexing a map over `List.range n` below `n` applies the function. -/
theorem range_map_getD {α : Type} (n : Nat) (f : Nat → α) (k : Nat) (hk : k < n) (d : α) :
    (((List.range n).map f).getD k d) = f k := by
  rw [List.getD_eq_getElem?_getD, List.getElem?_map, List.getElem?_range hk]
  rfl

/-- C7: `advance(start, steps, direction)` equals `(start + steps·direction) mod 12`,
lies in [0, 12), and advancing back by `-steps` returns to `start`. -/
theorem advance_range_invertible (start steps direction : Int)
    (h0 : 0 ≤ start) (h12 : start < 12) (hd : direction = 1 ∨ direction = -1) :
    get_next_position start steps direction = (start + steps * direction) % 12 ∧
    0 ≤ get_next_position start steps direction ∧
    get_next_position start steps direction < 12 ∧
    get_next_position (get_next_position start steps direction) (-steps) direction = start := by
  refine ⟨rfl, get_next_position_nonneg _ _ _, get_next_position_lt _ _ _, ?_⟩
  unfold get_next_position
  rcases hd with h | h <;> subst h <;> omega

/-- Witness for C7 at (start, steps, direction) = (5, 100, -1). -/
theorem advance_range_invertible_witness :
    ((0 : Int) ≤ 5 ∧ (5 : Int) < 12 ∧ ((-1 : Int) = 1 ∨ (-1 : Int) = -1)) ∧
    (get_next_position 5 100 (-1) = (5 + 100 * (-1)) % 12 ∧
     0 ≤ get_next_position 5 100 (-1) ∧
     get_next_position 5 100 (-1) < 12 ∧
     get_next_position (get_next_position 5 100 (-1)) (-100) (-1) = 5) :=
  ⟨by decide, advance_range_invertible 5 100 (-1) (by decide) (by decide) (by decide)⟩

/-- C6: on the five elements, `get_element_relation` realises exactly the
spec's six-rung priority ladder (scores 80/75/60/35/20/60), rung for rung. -/
theorem relation_ladder_refines_spec :
    ∀ host ∈ FIVE_ELEMENTS, ∀ guest ∈ FIVE_ELEMENTS,
      (get_element_relation host guest).score = (spec_relation host guest).2 ∧
      (get_element_relation host guest).type = category_zh (spec_relation host guest).1 := by
  decide

/-- Witness for C6 at (host, guest) = (火, 木): guest produces host, score 80. -/
theorem relation_ladder_refines_spec_witness :
    ("火" ∈ FIVE_ELEMENTS ∧ "木" ∈ FIVE_ELEMENTS) ∧
    ((get_element_relation "火" "木").score = (spec_relation "火" "木").2 ∧
     (get_element_relation "火" "木").type = category_zh (spec_relation "火" "木").1) :=
  ⟨by decide, relation_ladder_refines_spec "火" (by decide) "木" (by decide)⟩

/-- C9: on the five elements the final fallback rung of
`get_element_relation` (category 未知) is unreachable. -/
theorem relation_fallback_unreachable :
    ∀ me ∈ FIVE_ELEMENTS, ∀ target ∈ FIVE_ELEMENTS,
      (get_element_relation me target).type ≠ "未知" := by
  decide

/-- Witness for C9 at (me, target) = (土, 金). -/
theorem relation_fallback_unreachable_witness :
    ("土" ∈ FIVE_ELEMENTS ∧ "金" ∈ FIVE_ELEMENTS) ∧
    (get_element_relation "土" "金").type ≠ "未知" :=
  ⟨by decide, relation_fallback_unreachable "土" (by decide) "金" (by decide)⟩

/-- C4: for age ≥ 1 the decade stage is
`advance(advance(originHour, 1, dir), (age−1) div 7, dir)` with a
non-negative stage index; and for the subject with origin pillars
(0, 1, 2, 3), direction +1 and age 8 the decade stage is ring position 5. -/
theorem decade_stage_chain :
    (∀ (s : OnePalmSystem) (age : Int) (t : TargetData), 1 ≤ age →
       (calculate_hierarchy s age t).big_luck
          = get_next_position (get_next_position s.hour_idx 1 s.direction)
              ((age - 1).fdiv 7) s.direction
       ∧ 0 ≤ (age - 1).fdiv 7)
    ∧ (s0.year_idx = 0 ∧ s0.month_idx = 1 ∧ s0.day_idx = 2 ∧ s0.hour_idx = 3
       ∧ s0.direction = 1 ∧ ((8 : Int) - 1).fdiv 7 = 1
       ∧ (calculate_hierarchy s0 8 t0).big_luck = 5) := by
  constructor
  · intro s age t h
    exact ⟨rfl, Int.fdiv_nonneg (by omega) (by norm_num)⟩
  · decide

/-- Witness for C4 (first conjunct) at `s0`, age 8, target `t0`. -/
theorem decade_stage_chain_witness :
    (1 : Int) ≤ 8 ∧
    ((calculate_hierarchy s0 8 t0).big_luck
        = get_next_position (get_next_position s0.hour_idx 1 s0.direction)
            (((8 : Int) - 1).fdiv 7) s0.direction
     ∧ 0 ≤ ((8 : Int) - 1).fdiv 7) :=
  ⟨by decide, decade_stage_chain.1 s0 8 t0 (by decide)⟩

/-- C8 counterexample: a reachable chart whose four origin pillars all carry
the favorable star 天壽星 (branch 亥) produces only the all-favorable
pattern — no "three-or-more" pattern for 天壽星 exists in the detector, so
the two patterns are not both flagged. -/
theorem pattern_counterexample :
    star_name_at (mkOnePalmSystem 1 "亥" 1 1 "子").year_idx = "天壽星" ∧
    star_name_at (mkOnePalmSystem 1 "亥" 1 1 "子").month_idx = "天壽星" ∧
    star_name_at (mkOnePalmSystem 1 "亥" 1 1 "子").day_idx = "天壽星" ∧
    star_name_at (mkOnePalmSystem 1 "亥" 1 1 "子").hour_idx = "天壽星" ∧
    "天壽星" ∈ ["天貴星", "天福星", "天壽星", "天文星", "天權星"] ∧
    (calculate_special_patterns (mkOnePalmSystem 1 "亥" 1 1 "子")).map Prod.fst
      = ["👑 四柱全吉格"] := by
  decide

/-- C8 amended: when the four origin pillars all carry one favorable star
that does have a repeated-star rule (天貴星, 天福星 or 天權星), the
detector flags both the all-favorable pattern and that star's
three-or-more pattern simultaneously. -/
theorem pattern_simultaneity_amended (s : OnePalmSystem) (n : String)
    (h1 : star_name_at s.year_idx = n) (h2 : star_name_at s.month_idx = n)
    (h3 : star_name_at s.day_idx = n) (h4 : star_name_at s.hour_idx = n)
    (hn : n = "天貴星" ∨ n = "天福星" ∨ n = "天權星") :
    "👑 四柱全吉格" ∈ (calculate_special_patterns s).map Prod.fst ∧
    (if n = "天貴星" then "💎 三貴顯赫格"
     else if n = "天福星" then "💰 三福巨富格" else "🔥 三權掌印格")
      ∈ (calculate_special_patterns s).map Prod.fst := by
  rcases hn with rfl | rfl | rfl <;>
    simp [calculate_special_patterns, h1, h2, h3, h4, List.countP_cons]

/-- Witness for C8 amended: all four pillars at branch 子 (天貴星). -/
theorem pattern_simultaneity_amended_witness :
    (star_name_at (mkOnePalmSystem 1 "子" 1 1 "子").year_idx = "天貴星" ∧
     star_name_at (mkOnePalmSystem 1 "子" 1 1 "子").month_idx = "天貴星" ∧
     star_name_at (mkOnePalmSystem 1 "子" 1 1 "子").day_idx = "天貴星" ∧
     star_name_at (mkOnePalmSystem 1 "子" 1 1 "子").hour_idx = "天貴星") ∧
    ("👑 四柱全吉格" ∈ (calculate_special_patterns (mkOnePalmSystem 1 "子" 1 1 "子")).map Prod.fst ∧
     (if ("天貴星" : String) = "天貴星" then "💎 三貴顯赫格"
      else if ("天貴星" : String) = "天福星" then "💰 三福巨富格" else "🔥 三權掌印格")
       ∈ (calculate_special_patterns (mkOnePalmSystem 1 "子" 1 1 "子")).map Prod.fst) :=
  ⟨by decide,
   pattern_simultaneity_amended (mkOnePalmSystem 1 "子" 1 1 "子") "天貴星"
     (by decide) (by decide) (by decide) (by decide) (Or.inl rfl)⟩

/-- C1 counterexample: for the subject `s0` (origin-hour pillar at branch 3,
卯) and hierarchy `h0` (year layer at branch 5), slot 0 of the static
aspects list resolves to branch 巳 (position 5), not to the origin-hour
branch 卯 — so the static list and the trend generator (which anchors at
`hour_idx`) do not share the origin-hour anchor. -/
theorem aspect_anchor_counterexample :
    ((calculate_aspects h0 Scope.year).getD 0 default).zhi = "巳" ∧
    zhi_at ((s0.hour_idx + (0 : Int)) % 12) = "卯" ∧
    ("巳" : String) ≠ "卯" := by
  decide

/-- C1 amended: aspect slot i of the static aspects list resolves from the
hierarchy's year layer as anchor, `(yearLayer + i) mod 12`, for every scope;
inside the trend generator the slot-i aspect branch is anchored at the
subject's origin-hour pillar, `(originHour + i) mod 12`, as witnessed by the
emitted modifier. -/
theorem aspect_anchor_amended (h : Hierarchy) (scope : Scope) (i : Nat) (hi : i < 12) :
    ((calculate_aspects h scope).getD i default).zhi
        = zhi_at (((get_zhi_index (zhi_at h.year) : Int) + (i : Int)) % 12)
    ∧ ∀ (s : OnePalmSystem) (hier : Hierarchy) (sc : Scope) (p : Point),
        (trend_cell s hier sc p i).adjust
          = STAR_MODIFIERS (star_name_at ((s.hour_idx + (i : Int)) % 12))
            + (if ((s.hour_idx + (i : Int)) % 12) ∈ [s.year_idx, s.month_idx, s.day_idx, s.hour_idx]
               then (10 : Int) else 0) := by
  constructor
  · simp only [calculate_aspects]
    rw [range_map_getD 12 _ i hi]
  · intro s hier sc p
    rfl

/-- Witness for C1 amended at slot 0 with `h0`, `s0`. -/
theorem aspect_anchor_amended_witness :
    0 < 12 ∧
    (((calculate_aspects h0 Scope.year).getD 0 default).zhi
        = zhi_at (((get_zhi_index (zhi_at h0.year) : Int) + ((0 : Nat) : Int)) % 12)
     ∧ ∀ (s : OnePalmSystem) (hier : Hierarchy) (sc : Scope) (p : Point),
         (trend_cell s hier sc p 0).adjust
           = STAR_MODIFIERS (star_name_at ((s.hour_idx + ((0 : Nat) : Int)) % 12))
             + (if ((s.hour_idx + ((0 : Nat) : Int)) % 12) ∈ [s.year_idx, s.month_idx, s.day_idx, s.hour_idx]
                then (10 : Int) else 0)) :=
  ⟨by decide, aspect_anchor_amended h0 Scope.year 0 (by decide)⟩

/-- C3 counterexample: when the lunar day-count probe raises, the day-scope
axis has 30 points, not 29. -/
theorem axis_fallback_counterexample :
    cal_none.days_in_month 2026 (max 1 (min 12 t0.lunar_month)) = none ∧
    (calculate_full_trend s0 h0 Scope.day cal_none t0).axis_labels.length = 30 ∧
    (30 : Nat) ≠ 29 := by
  refine ⟨rfl, ?_, by decide⟩
  simp only [calculate_full_trend, loop_items, cal_none, List.length_map, List.length_range,
    Option.getD_none]

/-- C3 amended: the trend axis has 13 points for scope=year, 12 for
scope=month, 12 for scope=hour; for scope=day it has as many points as the
probed lunar month has days, falling back to 30 (not 29) when the probe
fails. -/
theorem axis_length_amended (s : OnePalmSystem) (h : Hierarchy) (cal : Calendar) (t : TargetData) :
    (calculate_full_trend s h Scope.year cal t).axis_labels.length = 13 ∧
    (calculate_full_trend s h Scope.month cal t).axis_labels.length = 12 ∧
    (calculate_full_trend s h Scope.hour cal t).axis_labels.length = 12 ∧
    (cal.days_in_month t.lunar_year (max 1 (min 12 t.lunar_month)) = none →
      (calculate_full_trend s h Scope.day cal t).axis_labels.length = 30) ∧
    (∀ d : Nat, cal.days_in_month t.lunar_year (max 1 (min 12 t.lunar_month)) = some d →
      (calculate_full_trend s h Scope.day cal t).axis_labels.length = d) := by
  refine ⟨by simp only [calculate_full_trend, loop_items, List.length_map, List.length_range],
          by simp only [calculate_full_trend, loop_items, List.length_map, List.length_range],
          by simp only [calculate_full_trend, loop_items, List.length_map, List.length_range],
          ?_, ?_⟩
  · intro hnone
    simp only [calculate_full_trend, loop_items, hnone, List.length_map, List.length_range,
      Option.getD_none]
  · intro d hd
    simp only [calculate_full_trend, loop_items, hd, List.length_map, List.length_range,
      Option.getD_some]

/-- Witness for C3 amended with the always-raising oracle. -/
theorem axis_length_amended_witness :
    (calculate_full_trend s0 h0 Scope.year cal_none t0).axis_labels.length = 13 ∧
    (calculate_full_trend s0 h0 Scope.month cal_none t0).axis_labels.length = 12 ∧
    (calculate_full_trend s0 h0 Scope.hour cal_none t0).axis_labels.length = 12 ∧
    cal_none.days_in_month t0.lunar_year (max 1 (min 12 t0.lunar_month)) = none ∧
    (calculate_full_trend s0 h0 Scope.day cal_none t0).axis_labels.length = 30 :=
  ⟨(axis_length_amended s0 h0 cal_none t0).1,
   (axis_length_amended s0 h0 cal_none t0).2.1,
   (axis_length_amended s0 h0 cal_none t0).2.2.1,
   rfl,
   (axis_length_amended s0 h0 cal_none t0).2.2.2.1 rfl⟩

/-- Nat-level roundtrip: indexing `ZHI` at a valid position and looking the
character back up returns the position. -/
theorem get_zhi_index_getD (n : Nat) (hn : n < 12) : get_zhi_index (ZHI.getD n "") = n := by
  interval_cases n <;> decide

/-- The year, month and day hierarchy layers always lie in [0, 12). -/
theorem hier_layer_bounds (s : OnePalmSystem) (age : Int) (t : TargetData) :
    (0 ≤ (calculate_hierarchy s age t).year ∧ (calculate_hierarchy s age t).year < 12) ∧
    (0 ≤ (calculate_hierarchy s age t).month ∧ (calculate_hierarchy s age t).month < 12) ∧
    (0 ≤ (calculate_hierarchy s age t).day ∧ (calculate_hierarchy s age t).day < 12) := by
  simp only [calculate_hierarchy]
  exact ⟨⟨get_next_position_nonneg _ _ _, get_next_position_lt _ _ _⟩,
         ⟨get_next_position_nonneg _ _ _, get_next_position_lt _ _ _⟩,
         ⟨get_next_position_nonneg _ _ _, get_next_position_lt _ _ _⟩⟩

/-- C2: at every trend point, aspect slot 0 (總命運) alone is scored with
Host substituted by the parent hierarchy layer and Guest by the point's
own time-layer element, while every other slot is scored with Host = the
point's time-layer element and Guest = the aspect branch's element. -/
theorem aggregate_substitution (s : OnePalmSystem) (h : Hierarchy) (scope : Scope)
    (p : Point) (i : Nat) (hi : i < 12) :
    (i = 0 →
      (trend_cell s h scope p i).score
        = (get_element_relation (star_element_at (parent_layer h scope))
            (star_element_at (dynamic_idx s h scope p))).score) ∧
    (i ≠ 0 →
      (trend_cell s h scope p i).score
        = (get_element_relation (star_element_at (dynamic_idx s h scope p))
            (star_element_at ((s.hour_idx + (i : Int)) % 12))).score) := by
  constructor
  · rintro rfl
    cases scope <;> rfl
  · intro hne
    have hname : (ASPECTS_ORDER.getD i "" = "總命運") = False := by
      refine eq_false ?_
      interval_cases i
      · exact absurd rfl hne
      all_goals decide
    simp only [trend_cell, hname, if_false]

/-- Witness for C2 at slot 0 with `s0`, `h0`, scope year. -/
theorem aggregate_substitution_witness :
    (0 : Nat) < 12 ∧
    (((0 : Nat) = 0 →
       (trend_cell s0 h0 Scope.year default 0).score
         = (get_element_relation (star_element_at (parent_layer h0 Scope.year))
             (star_element_at (dynamic_idx s0 h0 Scope.year default))).score) ∧
     ((0 : Nat) ≠ 0 →
       (trend_cell s0 h0 Scope.year default 0).score
         = (get_element_relation (star_element_at (dynamic_idx s0 h0 Scope.year default))
             (star_element_at ((s0.hour_idx + ((0 : Nat) : Int)) % 12))).score)) :=
  ⟨by decide, aggregate_substitution s0 h0 Scope.year default 0 (by decide)⟩

/-- C5: for a valid normalized target date, `target_index` is a valid index
into the axis, and the per-point time-layer recomputed at that index equals
the hierarchy layer of the active scope computed for the target date. -/
theorem target_index_alignment (s : OnePalmSystem) (age : Int) (t : TargetData)
    (cal : Calendar) (scope : Scope)
    (hm1 : 1 ≤ t.lunar_month) (hm2 : t.lunar_month ≤ 12)
    (hd1 : 1 ≤ t.lunar_day)
    (hd2 : t.lunar_day ≤ ((cal.days_in_month t.lunar_year (max 1 (min 12 t.lunar_month))).getD 30 : Int)) :
    0 ≤ (calculate_full_trend s (calculate_hierarchy s age t) scope cal t).target_index ∧
    (calculate_full_trend s (calculate_hierarchy s age t) scope cal t).target_index
        < ((calculate_full_trend s (calculate_hierarchy s age t) scope cal t).axis_labels.length : Int) ∧
    dynamic_idx s (calculate_hierarchy s age t) scope
        ((loop_items scope cal t).getD
          (calculate_full_trend s (calculate_hierarchy s age t) scope cal t).target_index.toNat default)
      = scope_layer (calculate_hierarchy s age t) scope := by
  obtain ⟨hy, hm, hd⟩ := hier_layer_bounds s age t
  have hyr : (get_zhi_index (zhi_at (calculate_hierarchy s age t).year) : Int)
      = (calculate_hierarchy s age t).year := get_zhi_index_zhi_at _ hy.1 hy.2
  have hmr : (get_zhi_index (zhi_at (calculate_hierarchy s age t).month) : Int)
      = (calculate_hierarchy s age t).month := get_zhi_index_zhi_at _ hm.1 hm.2
  have hdr : (get_zhi_index (zhi_at (calculate_hierarchy s age t).day) : Int)
      = (calculate_hierarchy s age t).day := get_zhi_index_zhi_at _ hd.1 hd.2
  cases scope
  case year =>
    refine ⟨by norm_num [calculate_full_trend, target_val_match], ?_, ?_⟩
    · simp only [calculate_full_trend, target_val_match, loop_items,
        List.length_map, List.length_range]
      norm_num
    · simp only [calculate_full_trend, target_val_match, loop_items]
      have h6n : (6 : Int).toNat = 6 := rfl
      rw [h6n, range_map_getD 13 _ 6 (by norm_num)]
      simp only [dynamic_idx, scope_layer, get_next_position]
      rw [hyr]
      have h6 : ((6 : Nat) : Int) - 6 = 0 := by norm_num
      rw [h6, zero_mul]
      omega
  case month =>
    have hki : (t.lunar_month - 1).toNat < 12 := by omega
    refine ⟨by simp only [calculate_full_trend, target_val_match]; omega, ?_, ?_⟩
    · simp only [calculate_full_trend, target_val_match, loop_items,
        List.length_map, List.length_range]
      omega
    · simp only [calculate_full_trend, target_val_match, loop_items]
      rw [range_map_getD 12 _ _ hki]
      simp only [dynamic_idx, scope_layer]
      rw [hyr]
      have hval : (((t.lunar_month - 1).toNat : Int) + 1) - 1 = t.lunar_month - 1 := by omega
      rw [hval]
      simp only [calculate_hierarchy]
  case day =>
    have hdays : t.lunar_day ≤ ((cal.days_in_month t.lunar_year (max 1 (min 12 t.lunar_month))).getD 30 : Int) := hd2
    have hki : (t.lunar_day - 1).toNat < (cal.days_in_month t.lunar_year (max 1 (min 12 t.lunar_month))).getD 30 := by omega
    refine ⟨by simp only [calculate_full_trend, target_val_match]; omega, ?_, ?_⟩
    · simp only [calculate_full_trend, target_val_match, loop_items,
        List.length_map, List.length_range]
      omega
    · simp only [calculate_full_trend, target_val_match, loop_items]
      rw [range_map_getD _ _ _ hki]
      have hval : ∀ sol : Option (Int × Int × Int),
          (match sol with
            | some (_, sm, sd) =>
                ({ off := 0, val := ((t.lunar_day - 1).toNat : Int) + 1, zhi := "",
                   label1 := toString sm ++ "/" ++ toString sd,
                   label2 := if ((t.lunar_day - 1).toNat : Int) + 1 < 11 then
                       "(初" ++ toString (((t.lunar_day - 1).toNat : Int) + 1) ++ ")"
                     else "(" ++ toString (((t.lunar_day - 1).toNat : Int) + 1) ++ ")" } : Point)
            | none =>
                { off := 0, val := ((t.lunar_day - 1).toNat : Int) + 1, zhi := "",
                  label1 := toString (((t.lunar_day - 1).toNat : Int) + 1) ++ "日", label2 := "" }).val
          = ((t.lunar_day - 1).toNat : Int) + 1 := by
        intro sol
        rcases sol with _ | ⟨_, _, _⟩ <;> rfl
      simp only [dynamic_idx, scope_layer]
      rw [hval]
      rw [hmr]
      have hval2 : (((t.lunar_day - 1).toNat : Int) + 1) - 1 = t.lunar_day - 1 := by omega
      rw [hval2]
      simp only [calculate_hierarchy]
  case hour =>
    have hz : get_zhi_index t.hour_zhi < 12 := get_zhi_index_lt t.hour_zhi
    refine ⟨by simp only [calculate_full_trend, target_val_match]; omega, ?_, ?_⟩
    · simp only [calculate_full_trend, target_val_match, loop_items,
        List.length_map, List.length_range]
      omega
    · simp only [calculate_full_trend, target_val_match, loop_items, Int.toNat_natCast]
      rw [range_map_getD 12 _ _ hz]
      simp only [dynamic_idx, scope_layer]
      rw [hdr, get_zhi_index_getD _ hz]
      simp only [calculate_hierarchy]

/-- Witness for C5 at `s0`, age 8, `t0`, the always-raising oracle, scope month. -/
theorem target_index_alignment_witness :
    ((1 : Int) ≤ t0.lunar_month ∧ t0.lunar_month ≤ 12 ∧ (1 : Int) ≤ t0.lunar_day ∧
     t0.lunar_day ≤ ((cal_none.days_in_month t0.lunar_year (max 1 (min 12 t0.lunar_month))).getD 30 : Int)) ∧
    (0 ≤ (calculate_full_trend s0 (calculate_hierarchy s0 8 t0) Scope.month cal_none t0).target_index ∧
     (calculate_full_trend s0 (calculate_hierarchy s0 8 t0) Scope.month cal_none t0).target_index
        < ((calculate_full_trend s0 (calculate_hierarchy s0 8 t0) Scope.month cal_none t0).axis_labels.length : Int) ∧
     dynamic_idx s0 (calculate_hierarchy s0 8 t0) Scope.month
        ((loop_items Scope.month cal_none t0).getD
          (calculate_full_trend s0 (calculate_hierarchy s0 8 t0) Scope.month cal_none t0).target_index.toNat default)
      = scope_layer (calculate_hierarchy s0 8 t0) Scope.month) :=
  ⟨by decide,
   target_index_alignment s0 8 t0 cal_none Scope.month
     (by decide) (by decide) (by decide) (by decide)⟩

/-- C10: the trend response is aligned — there are 12 per-aspect score,
modifier and annotation lists, each exactly as long as the axis-label list,
and the compatibility overlay has one entry per axis point. -/
theorem trend_arrays_aligned (s : OnePalmSystem) (h : Hierarchy) (scope : Scope)
    (cal : Calendar) (t : TargetData) :
    (calculate_full_trend s h scope cal t).datasets.length = 12 ∧
    (calculate_full_trend s h scope cal t).adjustments.length = 12 ∧
    (calculate_full_trend s h scope cal t).tooltips.length = 12 ∧
    (∀ j : Nat, j < 12 →
      ((calculate_full_trend s h scope cal t).datasets.getD j []).length
          = (calculate_full_trend s h scope cal t).axis_labels.length ∧
      ((calculate_full_trend s h scope cal t).adjustments.getD j []).length
          = (calculate_full_trend s h scope cal t).axis_labels.length ∧
      ((calculate_full_trend s h scope cal t).tooltips.getD j []).length
          = (calculate_full_trend s h scope cal t).axis_labels.length) ∧
    (calculate_full_trend s h scope cal t).renhe_scores.length
        = (calculate_full_trend s h scope cal t).axis_labels.length := by
  refine ⟨?_, ?_, ?_, ?_, ?_⟩
  · simp only [calculate_full_trend, List.length_map, List.length_range]
  · simp only [calculate_full_trend, List.length_map, List.length_range]
  · simp only [calculate_full_trend, List.length_map, List.length_range]
  · intro j hj
    refine ⟨?_, ?_, ?_⟩ <;>
      · simp only [calculate_full_trend]
        rw [range_map_getD 12 _ j hj]
        simp only [List.length_map]
  · simp only [calculate_full_trend, List.length_map]

/-- Witness for C10 at `s0`, `h0`, scope hour, the always-raising oracle. -/
theorem trend_arrays_aligned_witness :
    (calculate_full_trend s0 h0 Scope.hour cal_none t0).datasets.length = 12 ∧
    (0 : Nat) < 12 ∧
    ((calculate_full_trend s0 h0 Scope.hour cal_none t0).datasets.getD 0 []).length
        = (calculate_full_trend s0 h0 Scope.hour cal_none t0).axis_labels.length ∧
    (calculate_full_trend s0 h0 Scope.hour cal_none t0).renhe_scores.length
        = (calculate_full_trend s0 h0 Scope.hour cal_none t0).axis_labels.length :=
  ⟨(trend_arrays_aligned s0 h0 Scope.hour cal_none t0).1,
   by decide,
   ((trend_arrays_aligned s0 h0 Scope.hour cal_none t0).2.2.2.1 0 (by decide)).1,
   (trend_arrays_aligned s0 h0 Scope.hour cal_none t0).2.2.2.2⟩

end OnePalm
